import Mathlib

/-!
# Verification of the task-generation and notification pipeline

Shallow embedding of the core logic of a single-file React application
(`src/App.js`): a keyword-based domain classifier (`inferDomain`), a cyclic
timeframe picker (`pickTimeframe`), a deterministic task synthesizer
(`generateTasks`), and the completion-notification workflow
(`toggleComplete` with its inlined notifier, factored here as
`notifyCompletion`), together with the `addGenerated` UI handler.

Modelling conventions:
* JavaScript strings are Lean `String`s; character-level scanning works on
  `String.data : List Char`.
* `String.prototype.toLowerCase` is modelled by `Char.toLower` per
  character (faithful on ASCII, which covers every keyword pattern).
* The regex character class `\s` and `String.prototype.trim` are modelled
  by `isSpaceJS`, listing the JavaScript whitespace code points; the regex
  `.` (which skips line terminators) is modelled via `isLineTermJS`.
* `Math.random`/`Date.now`-based id generation (`uid`) is an ambient side
  input; it is injected as a parameter `newId : Nat → String` giving the id
  allocated for the i-th task of one synthesis call.
* `new Date().toISOString()` is injected as a parameter `now : String`
  standing for the ISO-8601 clock reading at send time.
* The HTTP transport (`fetch`) is injected as a function
  `tr : Request → FetchResult`; the list of `Request`s issued by an
  operation is returned alongside its result, so "zero network calls"
  is the statement that this list is empty.
-/

namespace TaskGen

/-- The JavaScript whitespace code points: the `\s` regex class and the
characters removed by `String.prototype.trim`. -/
def isSpaceJS (c : Char) : Bool :=
  decide (c.toNat ∈ ([9, 10, 11, 12, 13, 32, 160, 5760, 8192, 8193, 8194, 8195, 8196, 8197,
    8198, 8199, 8200, 8201, 8202, 8232, 8233, 8239, 8287, 12288, 65279] : List Nat))

/-- JavaScript line terminators, which the regex `.` does not match. -/
def isLineTermJS (c : Char) : Bool :=
  decide (c.toNat ∈ ([10, 13, 8232, 8233] : List Nat))

/-- Per-character lower-casing, modelling `String.prototype.toLowerCase`
(on the ASCII range, which covers all classifier keywords). -/
def lowerList (s : List Char) : List Char :=
  s.map Char.toLower

/-- `containsSub p s`: the pattern `p` occurs as a contiguous substring of
`s` — the effect of `/p/.test(s)` for a literal pattern `p`. -/
def containsSub (p : List Char) : List Char → Bool
  | [] => p.isEmpty
  | c :: rest => p.isPrefixOf (c :: rest) || containsSub p rest

/-- `gapThenMatch b s`: `s` has a (possibly empty) run of non-line-terminator
characters followed by the pattern `b` — the tail `.*b` of a regex. -/
def gapThenMatch (b : List Char) : List Char → Bool
  | [] => b.isEmpty
  | c :: rest => b.isPrefixOf (c :: rest) || (!isLineTermJS c && gapThenMatch b rest)

/-- `matchGap a b s`: the regex `a.*b` matches somewhere in `s` (an
occurrence of `a`, then any characters except line terminators, then `b`). -/
def matchGap (a b : List Char) : List Char → Bool
  | [] => a.isEmpty && b.isEmpty
  | s@(_ :: rest) =>
      (a.isPrefixOf s && gapThenMatch b (s.drop a.length)) || matchGap a b rest

/-- The closed set of domains assigned by the classifier. -/
inductive Domain
  | exam
  | moving
  | pc
  | travel
  | fitness
  | generic
deriving DecidableEq, Repr

/-- `inferDomain(context)` from `src/App.js`: lower-case the input, then try
the five keyword groups in fixed priority order; the first match wins and
`generic` is the fallback. The regexes are alternations of literal
substrings, except `build.*computer` and `gaming.*rig` in the pc group. -/
def inferDomain (context : String) : Domain :=
  let lc := lowerList context.data
  if containsSub "exam".data lc || containsSub "study".data lc ||
     containsSub "college".data lc || containsSub "test".data lc ||
     containsSub "syllabus".data lc then Domain.exam
  else if containsSub "move".data lc || containsSub "relocat".data lc ||
     containsSub "apartment".data lc || containsSub "pack".data lc ||
     containsSub "shifting".data lc then Domain.moving
  else if containsSub "pc".data lc || matchGap "build".data "computer".data lc ||
     matchGap "gaming".data "rig".data lc || containsSub "components".data lc ||
     containsSub "parts".data lc then Domain.pc
  else if containsSub "travel".data lc || containsSub "trip".data lc ||
     containsSub "itinerary".data lc || containsSub "flight".data lc ||
     containsSub "hotel".data lc then Domain.travel
  else if containsSub "fitness".data lc || containsSub "workout".data lc ||
     containsSub "diet".data lc || containsSub "health".data lc ||
     containsSub "gym".data lc then Domain.fitness
  else Domain.generic

/-- The `DEFAULT_TIMEFRAMES` constant: the ordered 7-label timeframe cycle. -/
def DEFAULT_TIMEFRAMES : List String :=
  ["15 minutes", "30 minutes", "1 hour", "2 hours", "Half day", "1 day", "2–3 days"]

/-- `pickTimeframe(idx)`: `DEFAULT_TIMEFRAMES[idx % DEFAULT_TIMEFRAMES.length]`.
The index is always reduced mod 7, so the `getD` default is never used. -/
def pickTimeframe (idx : Nat) : String :=
  DEFAULT_TIMEFRAMES.getD (idx % DEFAULT_TIMEFRAMES.length) ""

/-- The task record produced by synthesis and stored in the task list. -/
structure Task where
  id : String
  name : String
  description : String
  timeframe : String
  completed : Bool
deriving DecidableEq, Repr

/-- The `base` array of `generateTasks`: the five (role key, display name)
pairs in fixed order. -/
def base : List (String × String) :=
  [("research", "Research essentials"),
   ("plan", "Draft a plan"),
   ("resources", "List resources & tools"),
   ("execute", "Execute first milestone"),
   ("review", "Review & next steps")]

/-- The `domainHints` table of `generateTasks`: the hint sentence for each
(domain, role key) cell. A key outside the five role keys would read
`undefined` in the source; that is modelled by the catch-all `""`. -/
def hintFor (d : Domain) (key : String) : String :=
  match d with
  | Domain.exam =>
      if key = "research" then "Outline subjects and weightage from the syllabus."
      else if key = "plan" then "Create a 2-week timetable with daily topics."
      else if key = "resources" then "Gather notes, past papers, and flashcards."
      else if key = "execute" then "Study the first topic and attempt 10 practice questions."
      else if key = "review" then "Revise mistakes and adjust timetable."
      else ""
  | Domain.moving =>
      if key = "research" then "List must-have vs. discard items."
      else if key = "plan" then "Create packing schedule and room-wise checklist."
      else if key = "resources" then "Arrange boxes, labels, and transport."
      else if key = "execute" then "Pack non-essentials and label boxes."
      else if key = "review" then "Confirm mover timings; update address where needed."
      else ""
  | Domain.pc =>
      if key = "research" then "Pick target use-case, budget, and performance goals."
      else if key = "plan" then "Draft parts list (CPU, GPU, RAM, SSD, PSU, case)."
      else if key = "resources" then "Compare prices; ensure component compatibility."
      else if key = "execute" then "Order parts or assemble mock build in a PCPartPicker clone."
      else if key = "review" then "Cable-manage, run benchmarks, and validate thermals."
      else ""
  | Domain.travel =>
      if key = "research" then "Choose destination, season, and budget."
      else if key = "plan" then "Sketch a 3–5 day itinerary with must-see spots."
      else if key = "resources" then "Check visas, flights, accommodation, and insurance."
      else if key = "execute" then "Book flights/hotels and set calendar reminders."
      else if key = "review" then "Share itinerary and offline maps to your phone."
      else ""
  | Domain.fitness =>
      if key = "research" then "Define goals (strength, fat-loss, endurance)."
      else if key = "plan" then "Schedule 3–4 weekly sessions with progressive overload."
      else if key = "resources" then "Set up gear, nutrition plan, and tracker app."
      else if key = "execute" then "Complete first workout and log metrics."
      else if key = "review" then "Assess soreness, sleep, and adjust plan."
      else ""
  | Domain.generic =>
      if key = "research" then "Clarify objectives and success criteria."
      else if key = "plan" then "Break work into 3–5 milestones."
      else if key = "resources" then "List tools, people, or budget needed."
      else if key = "execute" then "Complete first milestone with a small deliverable."
      else if key = "review" then "Retrospect and plan the next block."
      else ""

/-- The digit run captured by `/(\d+)\s*task/` when it matches at the very
start of `s`: a non-empty maximal digit run, then optional JS whitespace,
then the literal `task`. (Backtracking cannot produce any other match at
this position: giving digits back to `\d+` leaves a digit where either a
`\s` or the `t` of `task` would have to match.) -/
def matchCountHere (s : List Char) : Option (List Char) :=
  let digits := s.takeWhile Char.isDigit
  if digits.isEmpty then none
  else
    let rest := (s.drop digits.length).dropWhile isSpaceJS
    if "task".data.isPrefixOf rest then some digits else none

/-- `s.match(/(\d+)\s*task/)`: the captured digit group of the leftmost
match, scanning start positions left to right. -/
def findCount : List Char → Option (List Char)
  | [] => none
  | s@(_ :: rest) =>
      match matchCountHere s with
      | some digits => some digits
      | none => findCount rest

/-- `parseInt(digits, 10)` on a non-empty digit run. (JS number precision
only diverges from exact arithmetic above 2^53, which the later clamp into
[3,5] renders unobservable.) -/
def parseDigits (digits : List Char) : Nat :=
  digits.foldl (fun n c => n * 10 + (c.toNat - 48)) 0

/-- The `tasks` array built by `generateTasks` before truncation: the
`base.map((b, i) => ...)` of the source, one task per role, with the
generic-domain timeframe offset of +1. `newId i` stands for the `uid()`
call made for the i-th task. -/
def fiveTasks (newId : Nat → String) (context : String) : List Task :=
  let domain := inferDomain context
  base.enum.map (fun p =>
    { id := newId p.1
      name := p.2.2
      description := hintFor domain p.2.1
      timeframe := pickTimeframe (p.1 + (if domain = Domain.generic then 1 else 0))
      completed := false : Task })

/-- `generateTasks(context)` from `src/App.js`: classify the context, build
the five role tasks (`fiveTasks`), then truncate to the desired count
parsed from the first `<digits> task` occurrence, clamped into [3,5] (the
full array's length when absent). (`context || ""` is the identity on
actual strings, since only `""` is falsy.) -/
def generateTasks (newId : Nat → String) (context : String) : List Task :=
  let tasks := fiveTasks newId context
  let desired := match findCount context.data with
    | some digits => min 5 (max 3 (parseDigits digits))
    | none => tasks.length
  tasks.take desired

/-- A transient user-visible notice, as set by `setNotice` in the source:
a `type` tag (`"success"`, `"error"` or `"info"`) and a message. -/
structure Notice where
  type : String
  message : String
deriving DecidableEq, Repr

/-- The `task` snapshot embedded in the notification payload. -/
structure PayloadTask where
  id : String
  name : String
  description : String
  timeframe : String
  completed : Bool
deriving DecidableEq, Repr

/-- The notification payload object built in `toggleComplete`. -/
structure Payload where
  event : String
  timestamp : String
  source : String
  version : Nat
  task : PayloadTask
  context : String
deriving DecidableEq, Repr

/-- One outbound HTTP request as handed to `fetch`: URL, method, header
list, and the JSON body (kept structured rather than serialized). -/
structure Request where
  url : String
  method : String
  headers : List (String × String)
  body : Payload
deriving DecidableEq, Repr

/-- What `fetch` can produce: a response (with status, status text and
body text) or a transport-level error carrying an optional message
(`err?.message`, absent when the error object has none). -/
inductive FetchResult
  | response (status : Nat) (statusText : String) (bodyText : String)
  | transportError (msg : Option String)
deriving DecidableEq, Repr

/-- The payload literal of `toggleComplete`, with `now` standing for
`new Date().toISOString()`. -/
def mkPayload (task : Task) (context now : String) : Payload :=
  { event := "task_completed"
    timestamp := now
    source := "taskgen-local-app"
    version := 1
    task :=
      { id := task.id
        name := task.name
        description := task.description
        timeframe := task.timeframe
        completed := true }
    context := context }

/-- The single `fetch` call of `toggleComplete`: method POST, one
`Content-Type: application/json` header, JSON-encoded payload body. -/
def mkRequest (task : Task) (context url now : String) : Request :=
  { url := url
    method := "POST"
    headers := [("Content-Type", "application/json")]
    body := mkPayload task context now }

/-- JavaScript `s || fallback` on strings: only `""` is falsy. -/
def jsOr (s fallback : String) : String :=
  if s = "" then fallback else s

/-- The `res.ok` flag of the Fetch API: status in the 200–299 range. -/
def statusOk (status : Nat) : Bool :=
  200 ≤ status && status ≤ 299

/-- The webhook branch of `toggleComplete` (spec name `notify_completion`),
lines 220–256 of `src/App.js`: short-circuit on an empty URL with a
configuration-error notice and no request; otherwise issue exactly one
POST and map the transport result to a success/failure notice. Returns the
notice together with the list of requests issued (`res.text()` is read
only for diagnostic logging and does not affect the notice). -/
def notifyCompletion (task : Task) (context url now : String)
    (tr : Request → FetchResult) : Notice × List Request :=
  if url = "" then
    ({ type := "error", message := "No webhook URL set. Open Settings to add one." }, [])
  else
    let req := mkRequest task context url now
    match tr req with
    | FetchResult.response status statusText _bodyText =>
        if statusOk status then
          ({ type := "success", message := "Webhook sent successfully." }, [req])
        else
          ({ type := "error",
             message := "Webhook failed: " ++ toString status ++ " " ++ statusText }, [req])
    | FetchResult.transportError msg =>
        ({ type := "error",
           message := "Webhook error: " ++ jsOr (msg.getD "") "Network error" }, [req])

/-- The shell state the handlers operate over: the context text field, the
task list, the configured webhook URL, and the current notice. -/
structure AppState where
  context : String
  tasks : List Task
  webhookUrl : String
  notice : Option Notice
deriving Repr

/-- `String.prototype.trim`: strip JS whitespace from both ends. -/
def trimList (s : List Char) : List Char :=
  ((s.dropWhile isSpaceJS).reverse.dropWhile isSpaceJS).reverse

/-- `context.trim()` as a string-to-string operation. -/
def jsTrim (s : String) : String :=
  String.mk (trimList s.data)

/-- The `addGenerated` handler: refuse blank/whitespace-only context with
an error notice (leaving the task list alone); otherwise replace the task
list with `generateTasks(context.trim())` and show a success notice. -/
def addGenerated (newId : Nat → String) (s : AppState) : AppState :=
  if jsTrim s.context = "" then
    { s with notice := some { type := "error", message := "Please enter some context first." } }
  else
    let generated := generateTasks newId (jsTrim s.context)
    { s with
        tasks := generated
        notice := some { type := "success",
                         message := "Generated " ++ toString generated.length ++ " task(s)." } }

/-- The `toggleComplete` handler: unconditionally flip the clicked task's
`completed` flag in the task list (replacing every entry whose id matches),
then, only when the task was previously incomplete, run the webhook
notification (which sets the notice). Returns the new state and the list
of requests issued. -/
def toggleComplete (task : Task) (tr : Request → FetchResult) (now : String)
    (s : AppState) : AppState × List Request :=
  let updated := { task with completed := !task.completed }
  let newTasks := s.tasks.map (fun t => if t.id = task.id then updated else t)
  if !task.completed then
    let r := notifyCompletion task s.context s.webhookUrl now tr
    ({ s with tasks := newTasks, notice := some r.1 }, r.2)
  else
    ({ s with tasks := newTasks }, [])

example : inferDomain "" = Domain.generic := by decide
example : inferDomain "I have an exam before my travel trip" = Domain.exam := by decide
example : findCount "make 10 tasks".data = some ['1', '0'] := by decide
example : (generateTasks (fun _ => "x") "random babble, 1 task").length = 3 := by decide
example : (generateTasks (fun _ => "x") "I need to prepare for an exam, make 4 tasks").map Task.timeframe
    = ["15 minutes", "30 minutes", "1 hour", "2 hours"] := by decide

/-! ## Helper lemmas -/

lemma fiveTasks_eq (newId : Nat → String) (ctx : String) :
    fiveTasks newId ctx =
      [{ id := newId 0, name := "Research essentials",
         description := hintFor (inferDomain ctx) "research",
         timeframe := pickTimeframe (0 + (if inferDomain ctx = Domain.generic then 1 else 0)),
         completed := false },
       { id := newId 1, name := "Draft a plan",
         description := hintFor (inferDomain ctx) "plan",
         timeframe := pickTimeframe (1 + (if inferDomain ctx = Domain.generic then 1 else 0)),
         completed := false },
       { id := newId 2, name := "List resources & tools",
         description := hintFor (inferDomain ctx) "resources",
         timeframe := pickTimeframe (2 + (if inferDomain ctx = Domain.generic then 1 else 0)),
         completed := false },
       { id := newId 3, name := "Execute first milestone",
         description := hintFor (inferDomain ctx) "execute",
         timeframe := pickTimeframe (3 + (if inferDomain ctx = Domain.generic then 1 else 0)),
         completed := false },
       { id := newId 4, name := "Review & next steps",
         description := hintFor (inferDomain ctx) "review",
         timeframe := pickTimeframe (4 + (if inferDomain ctx = Domain.generic then 1 else 0)),
         completed := false }] := rfl

lemma fiveTasks_length (newId : Nat → String) (ctx : String) :
    (fiveTasks newId ctx).length = 5 := rfl

lemma generateTasks_of_none (newId : Nat → String) (ctx : String)
    (h : findCount ctx.data = none) :
    generateTasks newId ctx = fiveTasks newId ctx := by
  simp only [generateTasks, h]
  exact List.take_length _

lemma generateTasks_of_some (newId : Nat → String) (ctx : String) (digits : List Char)
    (h : findCount ctx.data = some digits) :
    generateTasks newId ctx =
      (fiveTasks newId ctx).take (min 5 (max 3 (parseDigits digits))) := by
  simp only [generateTasks, h]

lemma mem_of_isPrefixOf {p s : List Char} (h : p.isPrefixOf s = true) :
    ∀ c ∈ p, c ∈ s := by
  induction p generalizing s with
  | nil => intro c hc; simp at hc
  | cons a q ih =>
    cases s with
    | nil => simp [List.isPrefixOf] at h
    | cons b t =>
      simp only [List.isPrefixOf, Bool.and_eq_true, beq_iff_eq] at h
      intro c hc
      rcases List.mem_cons.mp hc with rfl | hc'
      · rw [h.1]; exact List.mem_cons_self _ _
      · exact List.mem_cons_of_mem b (ih h.2 c hc')

lemma mem_of_containsSub {p s : List Char} (h : containsSub p s = true) :
    ∀ c ∈ p, c ∈ s := by
  induction s with
  | nil =>
    intro c hc
    cases p with
    | nil => simp at hc
    | cons a q => simp [containsSub, List.isEmpty] at h
  | cons b t ih =>
    intro c hc
    simp only [containsSub, Bool.or_eq_true] at h
    rcases h with h | h
    · exact mem_of_isPrefixOf h c hc
    · exact List.mem_cons_of_mem b (ih h c hc)

lemma mem_of_matchGap {a b s : List Char} (h : matchGap a b s = true) :
    ∀ c ∈ a, c ∈ s := by
  induction s with
  | nil =>
    intro c hc
    cases a with
    | nil => simp at hc
    | cons x q => simp [matchGap, List.isEmpty] at h
  | cons x t ih =>
    intro c hc
    simp only [matchGap, Bool.or_eq_true, Bool.and_eq_true] at h
    rcases h with ⟨h1, _⟩ | h
    · exact mem_of_isPrefixOf h1 c hc
    · exact List.mem_cons_of_mem x (ih h c hc)

lemma toLower_of_isSpaceJS {c : Char} (h : isSpaceJS c = true) : Char.toLower c = c := by
  have hm : c.toNat ∈ ([9, 10, 11, 12, 13, 32, 160, 5760, 8192, 8193, 8194, 8195, 8196,
      8197, 8198, 8199, 8200, 8201, 8202, 8232, 8233, 8239, 8287, 12288, 65279] : List Nat) := by
    simpa [isSpaceJS] using h
  have hrange : c.toNat < 65 ∨ 90 < c.toNat := by
    simp only [List.mem_cons, List.not_mem_nil, or_false] at hm
    omega
  unfold Char.toLower
  rw [if_neg (by omega : ¬(c.toNat ≥ 65 ∧ c.toNat ≤ 90))]

lemma containsSub_eq_false_of_ws {s : List Char} (hws : ∀ c ∈ s, isSpaceJS c = true)
    {p : List Char} (hp : p.any (fun c => !isSpaceJS c) = true) :
    containsSub p s = false := by
  by_contra hcs
  rw [Bool.not_eq_false] at hcs
  rcases List.any_eq_true.mp hp with ⟨c0, hc0, hcns⟩
  rw [hws c0 (mem_of_containsSub hcs c0 hc0)] at hcns
  simp at hcns

lemma matchGap_eq_false_of_ws {s : List Char} (hws : ∀ c ∈ s, isSpaceJS c = true)
    {a b : List Char} (ha : a.any (fun c => !isSpaceJS c) = true) :
    matchGap a b s = false := by
  by_contra hcs
  rw [Bool.not_eq_false] at hcs
  rcases List.any_eq_true.mp ha with ⟨c0, hc0, hcns⟩
  rw [hws c0 (mem_of_matchGap hcs c0 hc0)] at hcns
  simp at hcns

lemma notifyCompletion_pos (task : Task) (ctx url now : String)
    (tr : Request → FetchResult) (h : url ≠ "") :
    notifyCompletion task ctx url now tr =
      match tr (mkRequest task ctx url now) with
      | FetchResult.response status statusText _ =>
          if statusOk status then
            ({ type := "success", message := "Webhook sent successfully." },
             [mkRequest task ctx url now])
          else
            ({ type := "error",
               message := "Webhook failed: " ++ toString status ++ " " ++ statusText },
             [mkRequest task ctx url now])
      | FetchResult.transportError msg =>
          ({ type := "error",
             message := "Webhook error: " ++ jsOr (msg.getD "") "Network error" },
           [mkRequest task ctx url now]) := by
  simp only [notifyCompletion]
  rw [if_neg h]

/-! ## Claim theorems -/

/-- C8: `pickTimeframe` indexes the fixed 7-label timeframe cycle
cyclically: it equals `cycle[index % 7]` for every non-negative index, is
periodic with period 7 (in particular at 7 versus 0), and enumerates the
seven duration labels in order on indices 0..6. -/
theorem c8_pickTimeframe_cyclic (i : Nat) :
    pickTimeframe i = DEFAULT_TIMEFRAMES.getD (i % 7) "" ∧
    pickTimeframe (i + 7) = pickTimeframe i ∧
    pickTimeframe 7 = pickTimeframe 0 ∧
    (List.range 7).map pickTimeframe =
      ["15 minutes", "30 minutes", "1 hour", "2 hours", "Half day", "1 day", "2–3 days"] := by
  refine ⟨rfl, ?_, by decide, by decide⟩
  have h7 : (i + 7) % 7 = i % 7 := Nat.add_mod_right i 7
  calc pickTimeframe (i + 7) = DEFAULT_TIMEFRAMES.getD ((i + 7) % 7) "" := rfl
    _ = DEFAULT_TIMEFRAMES.getD (i % 7) "" := by rw [h7]
    _ = pickTimeframe i := rfl

/-- C5: with an empty destination string the notifier short-circuits: it
returns the configuration-error notice and issues zero requests, for every
task, context, clock reading and transport. -/
theorem c5_notify_empty_destination (task : Task) (ctx now : String)
    (tr : Request → FetchResult) :
    notifyCompletion task ctx "" now tr =
      ({ type := "error", message := "No webhook URL set. Open Settings to add one." }, []) := by
  rfl

/-- C1: every synthesized list has length between 3 and 5, and its tasks
carry exactly the first `length` role display names in the fixed order
research, plan, resources, execute, review — a front-preserving prefix
with no skipped or reordered roles. -/
theorem c1_generateTasks_length_role_order (newId : Nat → String) (ctx : String) :
    3 ≤ (generateTasks newId ctx).length ∧ (generateTasks newId ctx).length ≤ 5 ∧
    (generateTasks newId ctx).map Task.name =
      (["Research essentials", "Draft a plan", "List resources & tools",
        "Execute first milestone", "Review & next steps"]).take
        (generateTasks newId ctx).length := by
  rcases hfc : findCount ctx.data with _ | digits
  · rw [generateTasks_of_none newId ctx hfc]
    refine ⟨by rw [fiveTasks_length]; omega, by rw [fiveTasks_length], ?_⟩
    rw [fiveTasks_eq]
    rfl
  · rw [generateTasks_of_some newId ctx digits hfc]
    have hlen : ((fiveTasks newId ctx).take (min 5 (max 3 (parseDigits digits)))).length =
        min 5 (max 3 (parseDigits digits)) := by
      rw [List.length_take, fiveTasks_length]; omega
    refine ⟨by rw [hlen]; omega, by rw [hlen]; omega, ?_⟩
    rw [hlen, List.map_take, fiveTasks_eq]
    rfl

/-- C3: the desired count comes from the first `<digits> task` occurrence
(matched case-sensitively on the input as given), clamped into [3,5]; with
no occurrence the full 5-role list is produced. Concretely: requests for 0
or 1 tasks yield 3, a request for 10 yields 5, only the first occurrence
is honored, and `4 Tasks` (capital T) does not match. -/
theorem c3_desired_count (newId : Nat → String) (ctx : String) (digits : List Char) :
    (findCount ctx.data = none → (generateTasks newId ctx).length = 5) ∧
    (findCount ctx.data = some digits →
      (generateTasks newId ctx).length = min 5 (max 3 (parseDigits digits))) ∧
    (generateTasks newId "make 0 tasks for me").length = 3 ∧
    (generateTasks newId "just 1 task").length = 3 ∧
    (generateTasks newId "give me 10 tasks").length = 5 ∧
    (generateTasks newId "2 tasks then 10 tasks").length = 3 ∧
    (generateTasks newId "make 4 Tasks").length = 5 := by
  refine ⟨?_, ?_, rfl, rfl, rfl, rfl, rfl⟩
  · intro h
    rw [generateTasks_of_none newId ctx h, fiveTasks_length]
  · intro h
    rw [generateTasks_of_some newId ctx digits h, List.length_take, fiveTasks_length]
    omega

/-- Witness for C3: a context without any `<digits> task` occurrence gives
the full 5-task list, and on `"give me 10 tasks"` the scanner captures
`10` and the clamped count is `min 5 (max 3 10) = 5`. -/
theorem c3_desired_count_witness :
    (generateTasks (fun _ => "w") "no digits here").length = 5 ∧
    (generateTasks (fun _ => "w") "give me 10 tasks").length =
      min 5 (max 3 (parseDigits ['1', '0'])) :=
  ⟨(c3_desired_count (fun _ => "w") "no digits here" []).1 (by decide),
   (c3_desired_count (fun _ => "w") "give me 10 tasks" ['1', '0']).2.1 (by decide)⟩

/-- C4: every synthesized task at position `i` has timeframe
`pickTimeframe (i + 1)` when the domain is `generic` and
`pickTimeframe i` otherwise; concretely, `"random babble, 1 task"` gives 3
generic tasks with timeframes `cycle[1..3]`, and
`"I need to prepare for an exam, make 4 tasks"` gives 4 exam tasks with
timeframes `cycle[0..3]` and the exam hint texts. -/
theorem c4_timeframe_offset (newId : Nat → String) (ctx : String) (i : Nat) (t : Task) :
    ((generateTasks newId ctx)[i]? = some t →
      t.timeframe = pickTimeframe (i + (if inferDomain ctx = Domain.generic then 1 else 0))) ∧
    inferDomain "random babble, 1 task" = Domain.generic ∧
    (generateTasks newId "random babble, 1 task").length = 3 ∧
    (generateTasks newId "random babble, 1 task").map Task.timeframe =
      [pickTimeframe 1, pickTimeframe 2, pickTimeframe 3] ∧
    inferDomain "I need to prepare for an exam, make 4 tasks" = Domain.exam ∧
    (generateTasks newId "I need to prepare for an exam, make 4 tasks").map Task.timeframe =
      [pickTimeframe 0, pickTimeframe 1, pickTimeframe 2, pickTimeframe 3] ∧
    (generateTasks newId "I need to prepare for an exam, make 4 tasks").map Task.description =
      ["Outline subjects and weightage from the syllabus.",
       "Create a 2-week timetable with daily topics.",
       "Gather notes, past papers, and flashcards.",
       "Study the first topic and attempt 10 practice questions."] := by
  refine ⟨?_, by decide, rfl, rfl, by decide, rfl, rfl⟩
  intro h
  have h5 : (fiveTasks newId ctx)[i]? = some t := by
    rcases hfc : findCount ctx.data with _ | digits
    · rw [generateTasks_of_none newId ctx hfc] at h
      exact h
    · rw [generateTasks_of_some newId ctx digits hfc] at h
      rcases Nat.lt_or_ge i (min 5 (max 3 (parseDigits digits))) with hi | hi
      · rw [List.getElem?_take_of_lt hi] at h
        exact h
      · exfalso
        rw [List.getElem?_eq_none (by rw [List.length_take, fiveTasks_length]; omega)] at h
        exact Option.noConfusion h
  have hi5 : i < 5 := by
    by_contra hge
    rw [List.getElem?_eq_none (by rw [fiveTasks_length]; omega)] at h5
    exact Option.noConfusion h5
  rw [fiveTasks_eq] at h5
  interval_cases i <;>
    simp only [List.getElem?_cons_zero, List.getElem?_cons_succ, Option.some.injEq] at h5 <;>
    subst h5 <;> rfl

/-- Witness for C4: the first task synthesized from
`"random babble, 1 task"` (a generic-domain context) has timeframe
`pickTimeframe (0 + 1)`, i.e. `"30 minutes"`. -/
theorem c4_timeframe_offset_witness :
    Task.timeframe
        { id := "w", name := "Research essentials",
          description := "Clarify objectives and success criteria.",
          timeframe := "30 minutes", completed := false } =
      pickTimeframe
        (0 + (if inferDomain "random babble, 1 task" = Domain.generic then 1 else 0)) :=
  (c4_timeframe_offset (fun _ => "w") "random babble, 1 task" 0
      { id := "w", name := "Research essentials",
        description := "Clarify objectives and success criteria.",
        timeframe := "30 minutes", completed := false }).1 (by decide)

/-- C2: the classifier tests the lower-cased input against the keyword
groups in the fixed priority order exam, moving, pc, travel, fitness with
`generic` as fallback: any exam-group match forces `exam` regardless of
later groups (so an input with both an exam and a travel keyword is
`exam`), and empty or whitespace-only input always yields `generic`. -/
theorem c2_classifier_priority_and_blank (ctx : String) :
    ((containsSub "exam".data (lowerList ctx.data) ||
      containsSub "study".data (lowerList ctx.data) ||
      containsSub "college".data (lowerList ctx.data) ||
      containsSub "test".data (lowerList ctx.data) ||
      containsSub "syllabus".data (lowerList ctx.data)) = true →
        inferDomain ctx = Domain.exam) ∧
    ((∀ c ∈ ctx.data, isSpaceJS c = true) → inferDomain ctx = Domain.generic) ∧
    inferDomain "" = Domain.generic ∧
    inferDomain "study for my exam then travel on a trip" = Domain.exam ∧
    inferDomain "travel on a trip" = Domain.travel := by
  refine ⟨?_, ?_, by decide, by decide, by decide⟩
  · intro h
    simp only [inferDomain, h, if_pos]
  · intro hws
    have hlc : lowerList ctx.data = ctx.data := by
      unfold lowerList
      calc ctx.data.map Char.toLower
          = ctx.data.map id := List.map_congr_left (fun c hc => toLower_of_isSpaceJS (hws c hc))
        _ = ctx.data := List.map_id _
    have key : ∀ p : List Char, p.any (fun c => !isSpaceJS c) = true →
        containsSub p (lowerList ctx.data) = false := by
      intro p hp
      rw [hlc]
      exact containsSub_eq_false_of_ws hws hp
    have keyG : ∀ a b : List Char, a.any (fun c => !isSpaceJS c) = true →
        matchGap a b (lowerList ctx.data) = false := by
      intro a b ha
      rw [hlc]
      exact matchGap_eq_false_of_ws hws ha
    simp only [inferDomain,
      key "exam".data (by decide), key "study".data (by decide),
      key "college".data (by decide), key "test".data (by decide),
      key "syllabus".data (by decide),
      key "move".data (by decide), key "relocat".data (by decide),
      key "apartment".data (by decide), key "pack".data (by decide),
      key "shifting".data (by decide),
      key "pc".data (by decide), keyG "build".data "computer".data (by decide),
      keyG "gaming".data "rig".data (by decide),
      key "components".data (by decide), key "parts".data (by decide),
      key "travel".data (by decide), key "trip".data (by decide),
      key "itinerary".data (by decide), key "flight".data (by decide),
      key "hotel".data (by decide),
      key "fitness".data (by decide), key "workout".data (by decide),
      key "diet".data (by decide), key "health".data (by decide),
      key "gym".data (by decide),
      Bool.or_false, Bool.false_or]
    simp

/-- Witness for C2: `"study for my exam then travel on a trip"` (exam and
travel keywords together) classifies as `exam` via the priority branch,
and the whitespace-only `"   "` classifies as `generic`. -/
theorem c2_classifier_priority_and_blank_witness :
    inferDomain "study for my exam then travel on a trip" = Domain.exam ∧
    inferDomain "   " = Domain.generic :=
  ⟨(c2_classifier_priority_and_blank "study for my exam then travel on a trip").1 (by decide),
   (c2_classifier_priority_and_blank "   ").2.1 (by decide)⟩

/-- C6: with a non-empty destination the notifier issues exactly one
request, and the outcome is determined by the transport result alone: a
success-range status yields the success notice, any other status yields a
failure notice carrying the numeric status and status text, and a
transport error yields a failure notice carrying the error message (with
the `"Network error"` fallback). The response body text never appears in
the outcome. -/
theorem c6_notify_outcomes (task : Task) (ctx url now : String)
    (tr : Request → FetchResult) (h : url ≠ "") :
    (notifyCompletion task ctx url now tr).2 = [mkRequest task ctx url now] ∧
    (∀ status statusText bodyText,
      tr (mkRequest task ctx url now) = FetchResult.response status statusText bodyText →
      (notifyCompletion task ctx url now tr).1 =
        if statusOk status then
          { type := "success", message := "Webhook sent successfully." }
        else
          { type := "error",
            message := "Webhook failed: " ++ toString status ++ " " ++ statusText }) ∧
    (∀ msg, tr (mkRequest task ctx url now) = FetchResult.transportError msg →
      (notifyCompletion task ctx url now tr).1 =
        { type := "error",
          message := "Webhook error: " ++ jsOr (msg.getD "") "Network error" }) := by
  rw [notifyCompletion_pos task ctx url now tr h]
  refine ⟨?_, ?_, ?_⟩
  · cases tr (mkRequest task ctx url now) with
    | response status statusText bodyText => cases hs : statusOk status <;> simp [hs]
    | transportError msg => rfl
  · intro status statusText bodyText htr
    rw [htr]
    cases hs : statusOk status <;> simp [hs]
  · intro msg htr
    rw [htr]

/-- Witness for C6: a mock transport answering 500 produces the failure
notice carrying `500 Internal Server Error`, and a mock transport failing
with no message produces the `"Network error"` fallback. -/
theorem c6_notify_outcomes_witness :
    ((notifyCompletion
        { id := "t", name := "n", description := "d", timeframe := "tf", completed := false }
        "ctx" "https://example.test/hook" "2026-01-01T00:00:00.000Z"
        (fun _ => FetchResult.response 500 "Internal Server Error" "oops")).1 =
      if statusOk 500 then
        { type := "success", message := "Webhook sent successfully." }
      else
        { type := "error",
          message := "Webhook failed: " ++ toString 500 ++ " " ++ "Internal Server Error" }) ∧
    ((notifyCompletion
        { id := "t", name := "n", description := "d", timeframe := "tf", completed := false }
        "ctx" "https://example.test/hook" "2026-01-01T00:00:00.000Z"
        (fun _ => FetchResult.transportError none)).1 =
      { type := "error",
        message := "Webhook error: " ++ jsOr ((none : Option String).getD "") "Network error" }) :=
  ⟨(c6_notify_outcomes
      { id := "t", name := "n", description := "d", timeframe := "tf", completed := false }
      "ctx" "https://example.test/hook" "2026-01-01T00:00:00.000Z"
      (fun _ => FetchResult.response 500 "Internal Server Error" "oops")
      (by decide)).2.1 500 "Internal Server Error" "oops" rfl,
   (c6_notify_outcomes
      { id := "t", name := "n", description := "d", timeframe := "tf", completed := false }
      "ctx" "https://example.test/hook" "2026-01-01T00:00:00.000Z"
      (fun _ => FetchResult.transportError none)
      (by decide)).2.2 none rfl⟩

/-- C7: the single request issued by the notifier has method POST, exactly
the `Content-Type: application/json` header (no authentication headers),
and a body with exactly the fields event `"task_completed"`, the send-time
timestamp, source `"taskgen-local-app"`, version 1, the completed-task
snapshot (with `completed = true`), and the free-text context. -/
theorem c7_payload_shape (task : Task) (ctx url now : String)
    (tr : Request → FetchResult) (h : url ≠ "") :
    (notifyCompletion task ctx url now tr).2 = [mkRequest task ctx url now] ∧
    mkRequest task ctx url now =
      { url := url
        method := "POST"
        headers := [("Content-Type", "application/json")]
        body :=
          { event := "task_completed"
            timestamp := now
            source := "taskgen-local-app"
            version := 1
            task := { id := task.id, name := task.name, description := task.description,
                      timeframe := task.timeframe, completed := true }
            context := ctx } } := by
  refine ⟨?_, rfl⟩
  rw [notifyCompletion_pos task ctx url now tr h]
  cases tr (mkRequest task ctx url now) with
  | response status statusText bodyText => cases hs : statusOk status <;> simp [hs]
  | transportError msg => rfl

/-- Witness for C7: with a concrete task, context and URL the notifier
issues exactly the one POST request built by `mkRequest`. -/
theorem c7_payload_shape_witness :
    (notifyCompletion
        { id := "t", name := "n", description := "d", timeframe := "tf", completed := false }
        "ctx" "https://example.test/hook" "2026-01-01T00:00:00.000Z"
        (fun _ => FetchResult.transportError none)).2 =
      [mkRequest
        { id := "t", name := "n", description := "d", timeframe := "tf", completed := false }
        "ctx" "https://example.test/hook" "2026-01-01T00:00:00.000Z"] :=
  (c7_payload_shape
      { id := "t", name := "n", description := "d", timeframe := "tf", completed := false }
      "ctx" "https://example.test/hook" "2026-01-01T00:00:00.000Z"
      (fun _ => FetchResult.transportError none) (by decide)).1

/-- C9: triggering generation on a blank or whitespace-only context is
refused: the error notice is set and the task list (and the rest of the
state) is left unchanged — no synthesis happens. -/
theorem c9_addGenerated_blank_refused (newId : Nat → String) (s : AppState)
    (hws : ∀ c ∈ s.context.data, isSpaceJS c = true) :
    (addGenerated newId s).tasks = s.tasks ∧
    (addGenerated newId s).notice =
      some { type := "error", message := "Please enter some context first." } ∧
    (addGenerated newId s).context = s.context ∧
    (addGenerated newId s).webhookUrl = s.webhookUrl := by
  have htrim : jsTrim s.context = "" := by
    unfold jsTrim trimList
    have h1 : s.context.data.dropWhile isSpaceJS = [] :=
      List.dropWhile_eq_nil_iff.mpr (fun x hx => hws x hx)
    rw [h1]
    rfl
  refine ⟨?_, ?_, ?_, ?_⟩ <;> simp [addGenerated, htrim]

/-- Witness for C9: on a two-space context the handler leaves the (empty)
task list unchanged, keeps the context and webhook URL, and sets the
error notice. -/
theorem c9_addGenerated_blank_refused_witness :
    (addGenerated (fun _ => "w")
        { context := "  ", tasks := [], webhookUrl := "", notice := none }).tasks = [] ∧
    (addGenerated (fun _ => "w")
        { context := "  ", tasks := [], webhookUrl := "", notice := none }).notice =
      some { type := "error", message := "Please enter some context first." } ∧
    (addGenerated (fun _ => "w")
        { context := "  ", tasks := [], webhookUrl := "", notice := none }).context = "  " ∧
    (addGenerated (fun _ => "w")
        { context := "  ", tasks := [], webhookUrl := "", notice := none }).webhookUrl = "" :=
  c9_addGenerated_blank_refused (fun _ => "w")
    { context := "  ", tasks := [], webhookUrl := "", notice := none } (by decide)

/-- C10: toggling always rewrites the task list first and unconditionally —
the clicked task's entry becomes the same task with `completed` flipped
(all other fields and all other tasks unchanged) — and this rewrite is
independent of the transport and of the webhook URL, so no notification
outcome rolls it back; when marking complete the stored entry has
`completed = true` and the original name, description and timeframe; and
un-completing a task issues no request and leaves the notice alone. -/
theorem c10_toggleComplete_frame (task : Task) (tr : Request → FetchResult)
    (now : String) (s : AppState) :
    ((toggleComplete task tr now s).1.tasks =
      s.tasks.map (fun t =>
        if t.id = task.id then { task with completed := !task.completed } else t)) ∧
    (∀ tr' : Request → FetchResult,
      (toggleComplete task tr' now s).1.tasks = (toggleComplete task tr now s).1.tasks) ∧
    (∀ url' : String,
      (toggleComplete task tr now { s with webhookUrl := url' }).1.tasks =
        (toggleComplete task tr now s).1.tasks) ∧
    (task.completed = false →
      (toggleComplete task tr now s).1.tasks =
        s.tasks.map (fun t =>
          if t.id = task.id then
            { id := task.id, name := task.name, description := task.description,
              timeframe := task.timeframe, completed := true }
          else t)) ∧
    (task.completed = true →
      (toggleComplete task tr now s).2 = [] ∧
      (toggleComplete task tr now s).1.notice = s.notice) := by
  cases hc : task.completed <;>
    refine ⟨?_, ?_, ?_, ?_, ?_⟩ <;>
    simp [toggleComplete, hc]

/-- Witness for C10: completing an incomplete task stores it with
`completed = true` and otherwise identical fields; un-completing a
completed task issues no request and keeps the notice. -/
theorem c10_toggleComplete_frame_witness :
    (toggleComplete
        { id := "a", name := "n", description := "d", timeframe := "t", completed := false }
        (fun _ => FetchResult.transportError none) "now"
        { context := "c",
          tasks := [{ id := "a", name := "n", description := "d", timeframe := "t",
                      completed := false }],
          webhookUrl := "", notice := none }).1.tasks =
      [{ id := "a", name := "n", description := "d", timeframe := "t", completed := true }] ∧
    ((toggleComplete
        { id := "a", name := "n", description := "d", timeframe := "t", completed := true }
        (fun _ => FetchResult.transportError none) "now"
        { context := "c", tasks := [], webhookUrl := "", notice := none }).2 = [] ∧
     (toggleComplete
        { id := "a", name := "n", description := "d", timeframe := "t", completed := true }
        (fun _ => FetchResult.transportError none) "now"
        { context := "c", tasks := [], webhookUrl := "", notice := none }).1.notice = none) :=
  ⟨(c10_toggleComplete_frame
      { id := "a", name := "n", description := "d", timeframe := "t", completed := false }
      (fun _ => FetchResult.transportError none) "now"
      { context := "c",
        tasks := [{ id := "a", name := "n", description := "d", timeframe := "t",
                    completed := false }],
        webhookUrl := "", notice := none }).2.2.2.1 rfl,
   (c10_toggleComplete_frame
      { id := "a", name := "n", description := "d", timeframe := "t", completed := true }
      (fun _ => FetchResult.transportError none) "now"
      { context := "c", tasks := [], webhookUrl := "", notice := none }).2.2.2.2 rfl⟩

end TaskGen
